import Mathlib

/-!
Shallow embedding of the OBSGradePuller captcha pipeline.

The repository has two source files: `src/main.py` (the login flow with
`captcha_handler`, the AI-then-human captcha resolution and the progress
indicator pause/resume around the manual prompt) and
`src/services/captcha_solver/auto_collect_digits.py` (`SmartCaptchaSolver`
with `find_character_regions` and `predict_digit`, plus the batch
data-collection loop `main`).

Modelling conventions:
- OpenCV vision primitives (thresholding, erosion, `findContours`,
  `boundingRect`, `resize`) are opaque collaborators: the contour bounding
  boxes and the resize implementation are parameters of the embedding, and
  everything the Python code computes from them (filtering, splitting,
  sorting, truncation, padding, normalisation, shapes) is translated
  literally.
- Python ints are `Nat` where the source values are non-negative, with
  subtraction carried out in `Int` where Python could go negative
  (`x + w//2 - center_x`, `(h - w)//2`).
- The float comparison `0.7 < w / float(h) < 1.4` is modelled by the exact
  rational comparison `7*h < 10*w ∧ 10*w < 14*h`; for bounding-box sizes the
  two agree (the nearest doubles to 0.7 and 1.4 differ from the rationals by
  less than any representable ratio of small integers).
- `uint8` pixels are `Fin 256`; fallible calls are `Option`/`Except`.
-/

namespace OBSGradePuller

/-- An axis-aligned bounding box `(x, y, w, h)` as produced by
`cv2.boundingRect` in `find_character_regions`. -/
structure Box where
  x : Nat
  y : Nat
  w : Nat
  h : Nat
  deriving DecidableEq, Repr

/-- The "plus sign specific filter" of `find_character_regions`
(auto_collect_digits.py lines 58-62): a box is suppressed as the separator
glyph when its horizontal centre `x + w//2` is within 25 pixels of the image
centre `img_w // 2`, its height is below 22, and its aspect ratio `w/h` is
strictly between 0.7 and 1.4 (exact rational form of the float test). -/
def isSeparator (img_w : Nat) (b : Box) : Bool :=
  let center_x := img_w / 2
  let dist := (((b.x + b.w / 2 : Nat) : Int) - ((center_x : Nat) : Int)).natAbs
  decide (dist < 25) && decide (b.h < 22) &&
    decide (7 * b.h < 10 * b.w) && decide (10 * b.w < 14 * b.h)

/-- The per-contour filtering and splitting logic of
`find_character_regions` (auto_collect_digits.py lines 49-76): drop boxes
shorter than 18 pixels, drop the separator glyph, split boxes wider than 45
into three equal-width thirds, split boxes wider than 28 into two
equal-width halves, keep the rest unchanged. -/
def processContour (img_w : Nat) (b : Box) : List Box :=
  if b.h < 18 then []
  else if isSeparator img_w b then []
  else if b.w > 28 then
    if b.w > 45 then
      let dv := b.w / 3
      [⟨b.x, b.y, dv, b.h⟩, ⟨b.x + dv, b.y, dv, b.h⟩, ⟨b.x + 2 * dv, b.y, dv, b.h⟩]
    else
      [⟨b.x, b.y, b.w / 2, b.h⟩, ⟨b.x + b.w / 2, b.y, b.w / 2, b.h⟩]
  else [b]

/-- `SmartCaptchaSolver.find_character_regions`
(auto_collect_digits.py lines 30-84), with the contour bounding boxes of the
thresholded-and-eroded image passed in as `contours`: each contour is
filtered/split by `processContour`, the surviving boxes are stably sorted by
ascending x (Python's `boxes.sort(key=lambda b: b[0])`), and the result is
truncated to at most 3 boxes (`boxes[:3]`). -/
def find_character_regions (img_w : Nat) (contours : List Box) : List Box :=
  let boxes := (contours.map (processContour img_w)).flatten
  (boxes.insertionSort (fun a b => a.x ≤ b.x)).take 3

instance : IsTotal Box (fun a b => a.x ≤ b.x) :=
  ⟨fun a b => Nat.le_total a.x b.x⟩

instance : IsTrans Box (fun a b => a.x ≤ b.x) :=
  ⟨fun _ _ _ hab hbc => Nat.le_trans hab hbc⟩

/-- A grayscale raster with `uint8` pixels, the type of `cv2.imread(...,
cv2.IMREAD_GRAYSCALE)` images and of the region crops fed to the
classifier. `rows` is the first numpy shape component (height), `cols`
the second (width). -/
structure Img where
  rows : Nat
  cols : Nat
  pix : Nat → Nat → Fin 256

/-- `cv2.copyMakeBorder(img, top, bottom, left, right, BORDER_CONSTANT,
value=0)`: the image is extended with zero-valued pixels on the four
sides. -/
def copyMakeBorder (img : Img) (top bottom left right : Nat) : Img where
  rows := top + img.rows + bottom
  cols := left + img.cols + right
  pix := fun i j =>
    if top ≤ i ∧ i < top + img.rows ∧ left ≤ j ∧ j < left + img.cols then
      img.pix (i - top) (j - left)
    else 0

/-- The horizontal pad `left_right_pad = max(0, (h - w) // 2)` of
`predict_digit` (auto_collect_digits.py line 94); Python floor division on
a possibly negative difference is `Int.fdiv`. -/
def predict_lr_pad (roi : Img) : Nat :=
  (max 0 (((roi.rows : Int) - (roi.cols : Int)).fdiv 2)).toNat

/-- The padded canvas of `predict_digit` (auto_collect_digits.py lines
93-95): no vertical padding, `predict_lr_pad` pixels of zero padding on
each horizontal side. -/
def predict_padded (roi : Img) : Img :=
  copyMakeBorder roi 0 0 (predict_lr_pad roi) (predict_lr_pad roi)

/-- The single-sample batch tensor handed to `model.predict`: shape
`(batch, rows, cols, channels)` with rational-valued entries (the
normalised pixes). -/
structure Blob where
  batch : Nat
  rows : Nat
  cols : Nat
  channels : Nat
  data : Nat → Nat → ℚ

/-- The preprocessing pipeline of `predict_digit` (auto_collect_digits.py
lines 93-101): pad via `predict_padded`, resize to a 32x32 canvas with the
opaque `cv2.resize` implementation `resizeImpl` (arguments: image, dsize
width, dsize height), divide by 255.0, and add the trailing channel axis
and the leading batch axis with `np.expand_dims`. -/
def preprocess (resizeImpl : Img → Nat → Nat → Img) (roi : Img) : Blob :=
  let padded := predict_padded roi
  let resized := resizeImpl padded 32 32
  { batch := 1
    rows := resized.rows
    cols := resized.cols
    channels := 1
    data := fun i j => ((resized.pix i j : Nat) : ℚ) / 255 }

/-- A loaded Keras model, abstracted to the function the code uses it as:
`model.predict` on a blob yields the (flattened) prediction scores. -/
abbrev Model := Blob → List ℚ

/-- First index of the maximal entry, the semantics of `np.argmax` on the
flattened prediction array (0 on an empty list). -/
def argmaxAux (best : ℚ) (bestIdx : Nat) (i : Nat) : List ℚ → Nat
  | [] => bestIdx
  | v :: vs => if best < v then argmaxAux v i (i + 1) vs else argmaxAux best bestIdx (i + 1) vs

/-- Entry point for `np.argmax` over the flattened scores. -/
def argmaxIdx : List ℚ → Nat
  | [] => 0
  | v :: vs => argmaxAux v 0 1 vs

/-- `SmartCaptchaSolver.predict_digit` (auto_collect_digits.py lines
86-104): with no loaded model return the sentinel; with a degenerate
(zero-height or zero-width) crop return the sentinel; otherwise run the
preprocessing pipeline and return the decimal string of the argmax class. -/
def predict_digit (resizeImpl : Img → Nat → Nat → Img) (model : Option Model)
    (roi : Img) : String :=
  match model with
  | none => "?"
  | some m =>
    if roi.rows = 0 ∨ roi.cols = 0 then "?"
    else toString (argmaxIdx (m (preprocess resizeImpl roi)))

/-- Origin tag of a resolved captcha code. -/
inductive Source where
  | automatic
  | human
  deriving DecidableEq, Repr

/-- A resolved captcha code together with its origin. -/
structure ResolvedCode where
  code : String
  source : Source
  deriving DecidableEq, Repr

/-- Modelled from the spec: `CaptchaSolver.solve` (the class
`src/services/captcha_solver/captcha_solver.py`, imported by `main.py` but
not present in the repository snapshot). Per the spec it runs the
segmenter, classifies each region in order and concatenates the labels,
and an automatic result with zero regions or any "unknown" region is the
empty result (which the caller treats as failure). `regions` is the
segmenter output and `classify` the per-region classifier. -/
def solve (regions : List Box) (classify : Box → String) : String :=
  let labels := regions.map classify
  if regions = [] ∨ "?" ∈ labels then "" else String.join labels

/-- The decision logic of `captcha_handler` (main.py lines 75-114): the
automatic path runs inside `try/except Exception` (an exception leaves
`ai_result = None`), a truthy `ai_result` (a non-empty string) is returned
as the automatic resolution, and anything else falls through to the manual
prompt whose typed code is returned. `autoResult` is the outcome of
`CaptchaSolver().solve(path)` and `humanCode` the operator's typed code. -/
def captcha_handler (autoResult : Except String String) (humanCode : String) :
    ResolvedCode :=
  let ai_result : Option String :=
    match autoResult with
    | Except.ok s => some s
    | Except.error _ => none
  match ai_result with
  | some s => if s = "" then ⟨humanCode, Source.human⟩ else ⟨s, Source.automatic⟩
  | none => ⟨humanCode, Source.human⟩

/-- State of the `rich` status spinner owned by the login flow. -/
inductive IndicatorState where
  | running
  | stopped
  deriving DecidableEq, Repr

/-- The manual-prompt segment of `captcha_handler` (main.py lines
104-111), as a trace over the indicator state: `status.stop()` runs first,
then the blocking `ui.ask_input` (whose outcome is `ask`: a typed code or
a raised exception), and only on the normal return is `status.start()`
executed. The returned value pairs the prompt outcome with the indicator
state at the point where control leaves the segment. -/
def manual_prompt (ask : Except String String) :
    Except (String × IndicatorState) (String × IndicatorState) :=
  let st := IndicatorState.stopped
  match ask with
  | Except.error e => Except.error (e, st)
  | Except.ok code => Except.ok (code, IndicatorState.running)

/-- Outcome of one iteration of the batch-collection loop. -/
inductive IterResult where
  | downloadFailed
  | decodeFailed
  | noRegions
  | processed (parsed : String)
  deriving DecidableEq, Repr

/-- `if os.path.exists(p): os.remove(p)` over a filesystem modelled as the
list of existing paths. -/
def removeIfThere (fs : List String) (p : String) : List String :=
  if p ∈ fs then fs.filter (fun q => q ≠ p) else fs

/-- One iteration of the batch-collection loop in `auto_collect_digits.main`
(auto_collect_digits.py lines 123-190), over the filesystem `fs` (list of
existing paths). `downloaded` is the `_download_captcha` result (`none` when
no file was produced); a successful download creates the temporary file at
`captcha_path`. `decodeOk` is whether `cv2.imread` succeeded, `contours`
feeds the real segmenter, `labelOf` is the per-box `predict_digit` outcome
and `cropName` the generated dataset path of a box's crop. Crops of
non-"?" boxes are written (and the parsed string extended) before the
temporary file is removed, exactly as in the source. -/
def batch_iteration (fs : List String) (downloaded : Option String)
    (decodeOk : Bool) (img_w : Nat) (contours : List Box)
    (labelOf : Box → String) (cropName : Box → String) :
    List String × IterResult :=
  match downloaded with
  | none => (fs, IterResult.downloadFailed)
  | some captcha_path =>
    let fs1 := captcha_path :: fs
    if decodeOk = false then
      (removeIfThere fs1 captcha_path, IterResult.decodeFailed)
    else
      let boxes := find_character_regions img_w contours
      if boxes = [] then
        (removeIfThere fs1 captcha_path, IterResult.noRegions)
      else
        let step := boxes.foldl
          (fun acc b =>
            if labelOf b = "?" then acc
            else (cropName b :: acc.1, acc.2 ++ labelOf b))
          (fs1, "")
        (removeIfThere step.1 captcha_path, IterResult.processed step.2)

/-- A concrete stand-in resize implementation honouring the `cv2.resize`
shape contract (output has the requested dsize). -/
def sampleResize : Img → Nat → Nat → Img :=
  fun _ w h => { rows := h, cols := w, pix := fun _ _ => 0 }

/-- A concrete 20x10 crop. -/
def sampleRoi : Img :=
  { rows := 20, cols := 10, pix := fun _ _ => 100 }

/-- A concrete stand-in model. -/
def sampleModel : Model := fun _ => [1, 0, 0]

/-- Claim C3: for every input grayscale image (any contour list and image
width), `find_character_regions` returns at most 3 regions, and the
returned sequence is sorted by ascending x coordinate. -/
theorem c3_at_most_three_sorted (img_w : Nat) (contours : List Box) :
    (find_character_regions img_w contours).length ≤ 3 ∧
    List.Sorted (fun a b => a.x ≤ b.x) (find_character_regions img_w contours) := by
  unfold find_character_regions
  constructor
  · rw [List.length_take]
    exact min_le_left _ _
  · exact List.Pairwise.sublist (List.take_sublist _ _)
      (List.sorted_insertionSort _ _)

/-- Claim C4, counterexample: the contour box `(10, 5, 47, 20)` in a
200-pixel-wide image exceeds the split threshold (width 47 > 28, indeed
47 > 45), and the segmenter replaces it with three sub-regions of width 15
each; their widths sum to 45, which differs from the original width 47 by
2 pixels, not at most 1. -/
theorem c4_counterexample :
    28 < (47 : Nat) ∧
    (find_character_regions 200 [⟨10, 5, 47, 20⟩]).map Box.w = [15, 15, 15] ∧
    ((find_character_regions 200 [⟨10, 5, 47, 20⟩]).map Box.w).sum = 45 ∧
    ¬ (47 - ((find_character_regions 200 [⟨10, 5, 47, 20⟩]).map Box.w).sum ≤ 1) := by
  decide

/-- Claim C4 as amended: a contour box that survives the height and
separator filters and whose width exceeds the split threshold 28 is
replaced by 2 sub-regions (3 when wider than 45) of equal width, each
keeping the original y and height; the widths sum to the original width
within 1 pixel of rounding for the 2-way split and within 2 pixels for the
3-way split. -/
theorem c4_wide_box_split (img_w : Nat) (b : Box) (hh : 18 ≤ b.h)
    (hsep : isSeparator img_w b = false) (hw : 28 < b.w) :
    (∀ c ∈ processContour img_w b,
      c.y = b.y ∧ c.h = b.h ∧ c.w = if 45 < b.w then b.w / 3 else b.w / 2) ∧
    (processContour img_w b).length = (if 45 < b.w then 3 else 2) ∧
    ((processContour img_w b).map Box.w).sum ≤ b.w ∧
    b.w ≤ ((processContour img_w b).map Box.w).sum + (if 45 < b.w then 2 else 1) := by
  unfold processContour
  rw [if_neg (by omega), if_neg (by simp [hsep]), if_pos hw]
  by_cases h45 : 45 < b.w
  · simp only [if_pos h45]
    refine ⟨?_, by simp, by simp; omega, by simp; omega⟩
    intro c hc
    simp only [List.mem_cons, List.not_mem_nil, or_false] at hc
    rcases hc with h | h | h <;> subst h <;> exact ⟨rfl, rfl, rfl⟩
  · simp only [if_neg h45]
    refine ⟨?_, by simp, by simp; omega, by simp; omega⟩
    intro c hc
    simp only [List.mem_cons, List.not_mem_nil, or_false] at hc
    rcases hc with h | h <;> subst h <;> exact ⟨rfl, rfl, rfl⟩

/-- Claim C4, witness: the amended split property instantiated at the
concrete wide box `(10, 5, 47, 20)` in a 200-pixel-wide image. -/
theorem c4_witness :
    ((processContour 200 ⟨10, 5, 47, 20⟩).map Box.w).sum ≤ 47 ∧
    (47 : Nat) ≤ ((processContour 200 ⟨10, 5, 47, 20⟩).map Box.w).sum +
      (if 45 < (47 : Nat) then 2 else 1) :=
  ⟨(c4_wide_box_split 200 ⟨10, 5, 47, 20⟩ (by decide) (by decide) (by decide)).2.2.1,
   (c4_wide_box_split 200 ⟨10, 5, 47, 20⟩ (by decide) (by decide) (by decide)).2.2.2⟩

/-- Claim C5, counterexample: in a 100-pixel-wide image the single contour
box `(27, 5, 47, 20)` passes the separator filter (its aspect ratio 47/20
is not near-square) and, being wider than 45, is split into thirds; the
middle sub-region `(42, 5, 15, 20)` is within 25 pixels of the horizontal
centre, near-square (15/20 = 0.75) and below the height threshold 22, yet
it is present in the segmenter's output. -/
theorem c5_counterexample :
    (⟨42, 5, 15, 20⟩ : Box) ∈ find_character_regions 100 [⟨27, 5, 47, 20⟩] ∧
    isSeparator 100 ⟨42, 5, 15, 20⟩ = true := by
  decide

/-- Claim C5 as amended: the separator-glyph test is applied to the
original contour bounding boxes before the wide-box split, so a contour
box satisfying it contributes nothing to the output; a sub-region produced
by splitting a wide contour box can itself satisfy the separator test and
still appear in the output. -/
theorem c5_separator_contour_dropped (img_w : Nat) (b : Box)
    (hsep : isSeparator img_w b = true) :
    processContour img_w b = [] := by
  unfold processContour
  by_cases hh : b.h < 18
  · rw [if_pos hh]
  · rw [if_neg hh, if_pos (by simp [hsep])]

/-- Claim C5, witness: the amended suppression property instantiated at
the concrete near-square centred box `(45, 5, 20, 20)` in a 100-pixel-wide
image. -/
theorem c5_witness :
    isSeparator 100 ⟨45, 5, 20, 20⟩ = true ∧
    processContour 100 ⟨45, 5, 20, 20⟩ = [] :=
  ⟨by decide, c5_separator_contour_dropped 100 ⟨45, 5, 20, 20⟩ (by decide)⟩

/-- The horizontal pad of `predict_digit` equals half the height excess of
the crop (zero when the crop is at least as wide as it is tall). -/
theorem predict_lr_pad_eq (roi : Img) :
    predict_lr_pad roi = (roi.rows - roi.cols) / 2 := by
  unfold predict_lr_pad
  rw [Int.fdiv_eq_ediv _ (by norm_num)]
  omega

/-- Claim C6: for every crop, `predict_digit`'s preprocessing pads only the
horizontal axis (row count unchanged, the same pad on each side), the
padded width is within one pixel of the height when the crop is taller
than wide and unchanged otherwise, and the blob handed to inference is a
single-sample, single-channel, square 32x32 canvas with entries in
`[0, 1]`. The hypothesis is the `cv2.resize` contract: the output image
has the requested target size. -/
theorem c6_square_canvas (resizeImpl : Img → Nat → Nat → Img) (roi : Img)
    (hresize : ∀ img w h, (resizeImpl img w h).rows = h ∧ (resizeImpl img w h).cols = w) :
    (predict_padded roi).rows = roi.rows ∧
    (predict_padded roi).cols = roi.cols + 2 * predict_lr_pad roi ∧
    (roi.cols ≤ roi.rows →
      roi.rows - 1 ≤ (predict_padded roi).cols ∧ (predict_padded roi).cols ≤ roi.rows) ∧
    (roi.rows ≤ roi.cols → (predict_padded roi).cols = roi.cols) ∧
    (preprocess resizeImpl roi).batch = 1 ∧
    (preprocess resizeImpl roi).channels = 1 ∧
    (preprocess resizeImpl roi).rows = 32 ∧
    (preprocess resizeImpl roi).cols = 32 ∧
    ∀ i j, 0 ≤ (preprocess resizeImpl roi).data i j ∧
      (preprocess resizeImpl roi).data i j ≤ 1 := by
  have hcols : (predict_padded roi).cols = roi.cols + 2 * predict_lr_pad roi := by
    simp only [predict_padded, copyMakeBorder]
    omega
  refine ⟨by simp [predict_padded, copyMakeBorder], hcols, ?_, ?_, rfl, rfl,
    (hresize _ 32 32).1, (hresize _ 32 32).2, ?_⟩
  · intro hle
    rw [hcols, predict_lr_pad_eq]
    omega
  · intro hge
    rw [hcols, predict_lr_pad_eq]
    omega
  · intro i j
    constructor
    · exact div_nonneg (by positivity) (by norm_num)
    · show ((((resizeImpl (predict_padded roi) 32 32).pix i j : Nat) : ℚ)) / 255 ≤ 1
      rw [div_le_one (by norm_num)]
      exact_mod_cast Nat.lt_succ_iff.mp (Fin.isLt _)

/-- Claim C6, witness: the preprocessing property instantiated at a
concrete 20x10 crop with a concrete shape-respecting resize. -/
theorem c6_witness :
    (preprocess sampleResize sampleRoi).rows = 32 ∧
    (preprocess sampleResize sampleRoi).cols = 32 ∧
    (predict_padded sampleRoi).rows = sampleRoi.rows :=
  ⟨(c6_square_canvas sampleResize sampleRoi (fun _ _ _ => ⟨rfl, rfl⟩)).2.2.2.2.2.2.1,
   (c6_square_canvas sampleResize sampleRoi (fun _ _ _ => ⟨rfl, rfl⟩)).2.2.2.2.2.2.2.1,
   (c6_square_canvas sampleResize sampleRoi (fun _ _ _ => ⟨rfl, rfl⟩)).1⟩

/-- Claim C7: with no loaded model, `predict_digit` returns the "unknown"
sentinel for every input region (and, being a total function, raises no
error). -/
theorem c7_no_model_unknown (resizeImpl : Img → Nat → Nat → Img) (roi : Img) :
    predict_digit resizeImpl none roi = "?" := rfl

/-- Claim C10: for every region of zero height or zero width,
`predict_digit` returns the "unknown" sentinel; the result does not depend
on the resize implementation or on the model, so no padding, resizing or
inference is attempted. -/
theorem c10_degenerate_roi (resizeImpl : Img → Nat → Nat → Img) (m : Model)
    (roi : Img) (hdeg : roi.rows = 0 ∨ roi.cols = 0) :
    predict_digit resizeImpl (some m) roi = "?" := by
  show (if roi.rows = 0 ∨ roi.cols = 0 then "?"
    else toString (argmaxIdx (m (preprocess resizeImpl roi)))) = "?"
  rw [if_pos hdeg]

/-- Claim C10, witness: the degenerate-crop property at a concrete
zero-height crop with a concrete model and resize. -/
theorem c10_witness :
    predict_digit sampleResize (some sampleModel)
      { rows := 0, cols := 7, pix := fun _ _ => 0 } = "?" :=
  c10_degenerate_roi sampleResize sampleModel _ (Or.inl rfl)

/-- Claim C1: the handler returns a human-sourced code whenever the
automatic path yields an empty result (zero regions or any unknown label),
an empty automatic result is never reported with `source = automatic`, and
an automatic-sourced code is returned only when the automatic path
produced a non-empty concatenation over a non-empty region list with no
unknown labels. -/
theorem c1_resolver_source (regions : List Box) (classify : Box → String)
    (humanCode : String) :
    ((regions = [] ∨ ∃ b ∈ regions, classify b = "?") →
      (captcha_handler (Except.ok (solve regions classify)) humanCode).source =
        Source.human ∧
      (captcha_handler (Except.ok (solve regions classify)) humanCode).code =
        humanCode) ∧
    (solve regions classify = "" →
      (captcha_handler (Except.ok (solve regions classify)) humanCode).source =
        Source.human) ∧
    ((captcha_handler (Except.ok (solve regions classify)) humanCode).source =
        Source.automatic →
      solve regions classify ≠ "" ∧ regions ≠ [] ∧
      (∀ b ∈ regions, classify b ≠ "?") ∧
      (captcha_handler (Except.ok (solve regions classify)) humanCode).code =
        solve regions classify) := by
  by_cases hs : solve regions classify = ""
  · have hh : captcha_handler (Except.ok (solve regions classify)) humanCode =
        ⟨humanCode, Source.human⟩ := by
      show (if solve regions classify = "" then (⟨humanCode, Source.human⟩ : ResolvedCode)
        else ⟨solve regions classify, Source.automatic⟩) = _
      rw [if_pos hs]
    refine ⟨fun _ => ⟨by rw [hh], by rw [hh]⟩, fun _ => by rw [hh], fun habs => ?_⟩
    rw [hh] at habs
    exact absurd habs (by simp)
  · have hcond : ¬ (regions = [] ∨ "?" ∈ regions.map classify) := by
      intro hc
      apply hs
      show (if regions = [] ∨ "?" ∈ regions.map classify then ""
        else String.join (regions.map classify)) = ""
      rw [if_pos hc]
    have hh : captcha_handler (Except.ok (solve regions classify)) humanCode =
        ⟨solve regions classify, Source.automatic⟩ := by
      show (if solve regions classify = "" then (⟨humanCode, Source.human⟩ : ResolvedCode)
        else ⟨solve regions classify, Source.automatic⟩) = _
      rw [if_neg hs]
    push_neg at hcond
    refine ⟨fun hem => ?_, fun h0 => absurd h0 hs,
      fun _ => ⟨hs, hcond.1, fun b hb hcb => hcond.2 (List.mem_map.mpr ⟨b, hb, hcb⟩),
        by rw [hh]⟩⟩
    rcases hem with h | ⟨b, hb, hcb⟩
    · exact absurd h hcond.1
    · exact absurd (List.mem_map.mpr ⟨b, hb, hcb⟩) hcond.2

/-- Claim C1, witness: with zero segmented regions the handler reports a
human-sourced resolution. -/
theorem c1_witness :
    (captcha_handler (Except.ok (solve ([] : List Box) (fun _ => "5"))) "742").source =
      Source.human :=
  ((c1_resolver_source [] (fun _ => "5") "742").1 (Or.inl rfl)).1

/-- Claim C2: an exception raised anywhere inside the automatic
recognition path (the `Except.error` outcome of constructing the solver
and calling `solve`) is absorbed by `captcha_handler` and converted into
the human fallback; the handler is a total function into `ResolvedCode`,
so no such exception reaches the session state machine. -/
theorem c2_exception_absorbed (err : String) (humanCode : String) :
    captcha_handler (Except.error err) humanCode = ⟨humanCode, Source.human⟩ := rfl

/-- Claim C8, counterexample: when the blocking prompt raises (here an
end-of-file error), the manual-prompt segment propagates the exception
with the indicator still stopped; `status.start()` is not executed on that
exit path, so the indicator is not restarted on every exit path. -/
theorem c8_counterexample :
    manual_prompt (Except.error "EOFError") =
      Except.error ("EOFError", IndicatorState.stopped) ∧
    IndicatorState.stopped ≠ IndicatorState.running :=
  ⟨rfl, by decide⟩

/-- Claim C8 as amended: the indicator stopped before the blocking prompt
is restarted only on the normal-return path; when the prompt itself
raises, the start call is skipped and the exception leaves the segment
with the indicator stopped (the enclosing handler then stops and closes
it, never restarts it). -/
theorem c8_restart_normal_path_only :
    (∀ code, manual_prompt (Except.ok code) =
      Except.ok (code, IndicatorState.running)) ∧
    (∀ e, manual_prompt (Except.error e) =
      Except.error (e, IndicatorState.stopped)) :=
  ⟨fun _ => rfl, fun _ => rfl⟩

/-- Removing a path from the modelled filesystem guarantees its absence. -/
theorem removeIfThere_not_mem (fs : List String) (p : String) :
    p ∉ removeIfThere fs p := by
  unfold removeIfThere
  split
  · simp
  · next h => exact h

/-- Claim C9: in batch-collection mode, after one loop iteration whose
download produced the temporary file (whether decoding failed, zero
regions were found, or the crops were persisted), the temporary
challenge-image file no longer exists on the resulting filesystem. -/
theorem c9_temp_file_deleted (fs : List String) (captcha_path : String)
    (decodeOk : Bool) (img_w : Nat) (contours : List Box)
    (labelOf : Box → String) (cropName : Box → String) :
    captcha_path ∉
      (batch_iteration fs (some captcha_path) decodeOk img_w contours
        labelOf cropName).1 := by
  simp only [batch_iteration]
  split
  · exact removeIfThere_not_mem _ _
  · split
    · exact removeIfThere_not_mem _ _
    · exact removeIfThere_not_mem _ _

end OBSGradePuller
